import Mathlib

/-!
Verification of the `simple-dynamo-ts` repository: a decorator-driven
object-mapping helper for DynamoDB.  We shallowly embed the metadata
registry (`src/decorators.ts`), the error classes (`src/exceptions.ts`)
and the generic repository (`src/simple-dynamodb-repository.ts`) as
executable Lean definitions, and prove the specified properties.

Conventions of the embedding:
* TypeScript `string | undefined` becomes `Option String`.
* JavaScript truthiness of a string (`if (s)`) is `s ≠ ""` on a `String`
  and `optTruthy` on an `Option String` (false for `none` and `some ""`).
* The nullish coalescing `a ?? b` on `Option` is `Option.getD` (note: it
  does NOT treat `""` as absent, matching JS).
* A thrown exception becomes `Except.error` carrying a `RepoError`; each
  TS error class is one constructor, and a bare `new Error(...)` is the
  `generic` constructor.
* `Reflect` metadata attached to a class / its prototype becomes a
  `Metadata` record; applying a decorator is a function
  `Metadata → Except RepoError Metadata` (the registry is unchanged when
  the decorator throws, exactly as in the source where the throw happens
  before `Reflect.defineMetadata`).
* Records (`Record<string, T>`) become association lists.
-/

namespace SimpleDynamo

/-- JS string truthiness: a string is truthy iff it is nonempty. -/
def strTruthy (s : String) : Bool := s ≠ ""

/-- Drops leading whitespace from a character list. -/
def dropLeadingWs : List Char → List Char
  | [] => []
  | c :: cs => if c.isWhitespace then dropLeadingWs cs else c :: cs

/-- `String.prototype.trim`: strips whitespace from both ends.  (Defined
by structural recursion so that concrete instances evaluate.) -/
def jsTrim (s : String) : String :=
  ⟨(dropLeadingWs (dropLeadingWs s.data).reverse).reverse⟩

/-- JS truthiness of a `string | undefined` value: truthy iff present and
nonempty. -/
def optTruthy : Option String → Bool
  | none => false
  | some s => strTruthy s

/-- The error classes of `src/exceptions.ts`, plus `generic` for a plain
`new Error(...)` thrown without a dedicated class. -/
inductive RepoError where
  | itemNotFound (msg : String)
  | invalidParameters (msg : String)
  | decoratorMissing (msg : String)
  | duplicateDecorator (msg : String)
  | generic (msg : String)
  deriving Repr, DecidableEq

/-- The kind (class) of an error, used to state which error class an
operation raises. -/
inductive ErrKind where
  | itemNotFound
  | invalidParameters
  | decoratorMissing
  | duplicateDecorator
  | generic
  deriving Repr, DecidableEq

def RepoError.kind : RepoError → ErrKind
  | .itemNotFound _ => .itemNotFound
  | .invalidParameters _ => .invalidParameters
  | .decoratorMissing _ => .decoratorMissing
  | .duplicateDecorator _ => .duplicateDecorator
  | .generic _ => .generic

/-- The kind of error a computation failed with, `none` when it
succeeded. -/
def errKindOf {α : Type} : Except RepoError α → Option ErrKind
  | .error e => some e.kind
  | .ok _ => none

/-- Association-list lookup, modelling `record[key]` on a
`Record<string, string>`. -/
def alookup {β : Type} : List (String × β) → String → Option β
  | [], _ => none
  | (k, v) :: rest, key => if k = key then some v else alookup rest key

/-- Association-list update, modelling `record[key] = value` on a JS
object: replaces the value in place when the key exists, appends
otherwise. -/
def aset {β : Type} : List (String × β) → String → β → List (String × β)
  | [], key, value => [(key, value)]
  | (k, v) :: rest, key, value =>
    if k = key then (key, value) :: rest else (k, v) :: aset rest key value

/-- The per-class metadata written by the decorators of
`src/decorators.ts`: the table name, the partition/sort key field names,
and the per-index partition/sort key field maps. -/
structure Metadata where
  tableName : Option String
  partitionKey : Option String
  sortKey : Option String
  indexPartitionKeys : List (String × String)
  indexSortKeys : List (String × String)
  deriving Repr, DecidableEq

/-- A class with no decorator applied yet. -/
def Metadata.empty : Metadata := ⟨none, none, none, [], []⟩

/-- `validateNonEmptyString` from `src/decorators.ts`: throws a plain
`Error` when the string trims to empty. -/
def validateNonEmptyString (value paramName : String) : Except RepoError Unit :=
  if jsTrim value = "" then
    .error (.generic ("Invalid " ++ paramName ++ ": cannot be an empty string."))
  else
    .ok ()

/-- The prelude every decorator runs on its optional name argument:
`if (x) { validateNonEmptyString(x, paramName); }` — note the JS
truthiness guard, which skips validation of an empty string. -/
def validateOptName (value : Option String) (paramName : String) :
    Except RepoError Unit :=
  match value with
  | some v => if strTruthy v then validateNonEmptyString v paramName else pure ()
  | none => pure ()

/-- The optional name argument survives the `validateOptName` prelude:
it is absent, or empty (skipping validation), or does not trim to
empty. -/
def nameArgOk : Option String → Bool
  | none => true
  | some v => !(strTruthy v && jsTrim v == "")

/-- `validateDuplicateDecorator` from `src/decorators.ts`: throws
`DuplicateDecoratorError` when a value is already registered under the
metadata key. -/
def validateDuplicateDecorator (existingKey : Option String)
    (decoratorName className conflict : String) : Except RepoError Unit :=
  match existingKey with
  | some existing =>
    .error (.duplicateDecorator
      ("Multiple " ++ decoratorName ++ " decorators found in class \"" ++ className ++
        "\". Existing decorator: \"" ++ existing ++ "\", conflicting property: \"" ++
        conflict ++ "\""))
  | none => .ok ()

/-- The `@DynamoTable(tableName?)` class decorator applied to a class
named `className` whose current metadata is `m`.  Note the source guards
the validation by JS truthiness (`if (tableName)`), so an empty-string
argument skips validation, and `tableName ?? target.name` then keeps the
empty string. -/
def DynamoTable (tableName : Option String) (className : String)
    (m : Metadata) : Except RepoError Metadata := do
  validateOptName tableName "tableName"
  let dynamoTableName := tableName.getD className
  validateDuplicateDecorator m.tableName "@DynamoTable" className dynamoTableName
  pure ⟨some dynamoTableName, m.partitionKey, m.sortKey,
        m.indexPartitionKeys, m.indexSortKeys⟩

/-- The `@PartitionKey(fieldName?)` property decorator applied to
property `propertyKey` of a class named `className`. -/
def PartitionKey (fieldName : Option String) (propertyKey className : String)
    (m : Metadata) : Except RepoError Metadata := do
  validateOptName fieldName "fieldName"
  let dynamoFieldName := fieldName.getD propertyKey
  validateDuplicateDecorator m.partitionKey "@PartitionKey" className dynamoFieldName
  pure ⟨m.tableName, some dynamoFieldName, m.sortKey,
        m.indexPartitionKeys, m.indexSortKeys⟩

/-- The `@SortKey(fieldName?)` property decorator.  (The source passes
`propertyKey`, not the resolved field name, as the conflict string.) -/
def SortKey (fieldName : Option String) (propertyKey className : String)
    (m : Metadata) : Except RepoError Metadata := do
  validateOptName fieldName "fieldName"
  let dynamoFieldName := fieldName.getD propertyKey
  validateDuplicateDecorator m.sortKey "@SortKey" className propertyKey
  pure ⟨m.tableName, m.partitionKey, some dynamoFieldName,
        m.indexPartitionKeys, m.indexSortKeys⟩

/-- The `@IndexPartitionKey(indexName, fieldName?)` property
decorator. -/
def IndexPartitionKey (indexName : String) (fieldName : Option String)
    (propertyKey className : String) (m : Metadata) : Except RepoError Metadata := do
  validateNonEmptyString indexName "indexName"
  validateOptName fieldName "fieldName"
  let dynamoFieldName := fieldName.getD propertyKey
  match alookup m.indexPartitionKeys indexName with
  | some existing =>
    .error (.duplicateDecorator
      ("Multiple @IndexPartitionKey decorators found for index \"" ++ indexName ++
        "\" in class \"" ++ className ++ "\". Existing partition key: \"" ++ existing ++
        "\", conflicting property: \"" ++ propertyKey ++ "\""))
  | none =>
    pure ⟨m.tableName, m.partitionKey, m.sortKey,
          aset m.indexPartitionKeys indexName dynamoFieldName, m.indexSortKeys⟩

/-- The `@IndexSortKey(indexName, fieldName?)` property decorator. -/
def IndexSortKey (indexName : String) (fieldName : Option String)
    (propertyKey className : String) (m : Metadata) : Except RepoError Metadata := do
  validateNonEmptyString indexName "indexName"
  validateOptName fieldName "fieldName"
  let dynamoFieldName := fieldName.getD propertyKey
  match alookup m.indexSortKeys indexName with
  | some existing =>
    .error (.duplicateDecorator
      ("Multiple @IndexSortKey decorators found for index \"" ++ indexName ++
        "\" in class \"" ++ className ++ "\". Existing sort key: \"" ++ existing ++
        "\", conflicting property: \"" ++ propertyKey ++ "\""))
  | none =>
    pure ⟨m.tableName, m.partitionKey, m.sortKey,
          m.indexPartitionKeys, aset m.indexSortKeys indexName dynamoFieldName⟩

/-- A declared entity class: its own name and the metadata its
decorators registered. -/
structure ClassDecl where
  className : String
  metadata : Metadata
  deriving Repr, DecidableEq

/-- A `DynamoEntityTarget`: either the class constructor itself or an
instance of the class.  Metadata lives on the class, so both carry the
same `ClassDecl`. -/
inductive EntityTarget where
  | cls (c : ClassDecl)
  | inst (c : ClassDecl)
  deriving Repr, DecidableEq

/-- `getConstructor`: normalizes an instance to its class. -/
def getConstructor : EntityTarget → ClassDecl
  | .cls c => c
  | .inst c => c

/-- `getDynamoTableName`: the registered table name, absent when never
declared.  Never raises. -/
def getDynamoTableName (target : EntityTarget) : Option String :=
  (getConstructor target).metadata.tableName

/-- `getPartitionKeyName`: the registered partition key field name,
absent when never declared.  Never raises. -/
def getPartitionKeyName (target : EntityTarget) : Option String :=
  (getConstructor target).metadata.partitionKey

/-- `getSortKeyName`: the registered sort key field name, absent when
never declared.  Never raises. -/
def getSortKeyName (target : EntityTarget) : Option String :=
  (getConstructor target).metadata.sortKey

/-- `getIndexPartitionKeyName`: throws a plain `Error` on an empty or
whitespace-only index name; otherwise looks the index up, returning
`none` when nothing was declared for it. -/
def getIndexPartitionKeyName (target : EntityTarget) (indexName : String) :
    Except RepoError (Option String) :=
  if ¬ strTruthy indexName ∨ jsTrim indexName = "" then
    .error (.generic "indexName cannot be empty")
  else
    .ok (alookup (getConstructor target).metadata.indexPartitionKeys indexName)

/-- `getIndexSortKeyName`: same contract as `getIndexPartitionKeyName`
for the per-index sort keys. -/
def getIndexSortKeyName (target : EntityTarget) (indexName : String) :
    Except RepoError (Option String) :=
  if ¬ strTruthy indexName ∨ jsTrim indexName = "" then
    .error (.generic "indexName cannot be empty")
  else
    .ok (alookup (getConstructor target).metadata.indexSortKeys indexName)

/-- `DynamoKey` from `src/types.ts`: `string | number`. -/
inductive DynamoKey where
  | str (s : String)
  | num (n : Int)
  deriving Repr, DecidableEq

/-- An attribute value of a stored item.  The repository only ever
writes key values and the `deletedAt` ISO string, so scalars suffice. -/
inductive AttrVal where
  | str (s : String)
  | num (n : Int)
  deriving Repr, DecidableEq

/-- `DynamoKeyMap`: field name → key value. -/
abbrev DynamoKeyMap := List (String × DynamoKey)

/-- A stored item, as the flat record the store keeps. -/
abbrev Item := List (String × AttrVal)

/-- The condition attached to a conditional put (`create`). -/
structure PutCondition where
  conditionExpression : String
  expressionAttributeNames : List (String × String)
  deriving Repr, DecidableEq

/-- The input of a `QueryCommand`. -/
structure QueryCommandInput where
  tableName : String
  indexName : Option String
  keyConditionExpression : String
  expressionAttributeNames : List (String × String)
  expressionAttributeValues : List (String × DynamoKey)
  limit : Option Nat
  scanIndexForward : Bool
  deriving Repr, DecidableEq

/-- One request issued to the DynamoDB document client. -/
inductive StoreCall where
  | getCmd (tableName : String) (key : DynamoKeyMap)
  | putCmd (tableName : String) (item : Item) (condition : Option PutCondition)
  | deleteCmd (tableName : String) (key : DynamoKeyMap)
  | queryCmd (input : QueryCommandInput)
  deriving Repr, DecidableEq

/-- The externally visible outcome of a repository operation: its result
(or the error it threw) together with the trace of store requests it
issued, in order. -/
structure RepoOutcome (α : Type) where
  result : Except RepoError α
  calls : List StoreCall

/-- The store as seen by point reads: table name and key → the item the
`GetCommand` response carries, absent when the response has no item. -/
abbrev Store := String → DynamoKeyMap → Option Item

/-- `QueryOptions` from `src/types.ts`.  `skComparator`,
`scanIndexForward` and `limit` are optional; `query` defaults them. -/
structure QueryOptions where
  pk : DynamoKey
  sk : Option DynamoKey
  skComparator : Option String
  indexName : Option String
  scanIndexForward : Option Bool
  limit : Option Nat
  deriving Repr, DecidableEq

/-- `getTableName` of the repository: resolves the table name, throwing
`DecoratorMissingError` when it is falsy (undeclared). -/
def Repo.getTableName (e : ClassDecl) : Except RepoError String :=
  match getDynamoTableName (.cls e) with
  | some t =>
    if strTruthy t then .ok t
    else .error (.decoratorMissing
      ("Table name not found for entity class \"" ++ e.className ++
        "\". Make sure the class is decorated with @DynamoTable."))
  | none =>
    .error (.decoratorMissing
      ("Table name not found for entity class \"" ++ e.className ++
        "\". Make sure the class is decorated with @DynamoTable."))

/-- `getPKName(indexName?)`: when an index name is given (truthy) the
index partition key is looked up first; a falsy result falls back to the
base partition key; a falsy final result throws
`DecoratorMissingError`. -/
def Repo.getPKName (e : ClassDecl) (indexName : Option String) :
    Except RepoError String := do
  let pkName ← match indexName with
    | some i =>
      if strTruthy i then getIndexPartitionKeyName (.cls e) i
      else pure none
    | none => pure none
  let pkName := if optTruthy pkName then pkName else getPartitionKeyName (.cls e)
  match pkName with
  | some p =>
    if strTruthy p then pure p
    else .error (.decoratorMissing
      ("Partition key not found for entity class \"" ++ e.className ++
        "\". Make sure a property is decorated with @PartitionKey."))
  | none =>
    .error (.decoratorMissing
      ("Partition key not found for entity class \"" ++ e.className ++
        "\". Make sure a property is decorated with @PartitionKey."))

/-- `getSKName(indexName?)`: index sort key first (when an index name is
given), base sort key as fallback; absence is not an error here. -/
def Repo.getSKName (e : ClassDecl) (indexName : Option String) :
    Except RepoError (Option String) := do
  let skName ← match indexName with
    | some i =>
      if strTruthy i then getIndexSortKeyName (.cls e) i
      else pure none
    | none => pure none
  pure (if optTruthy skName then skName else getSortKeyName (.cls e))

/-- `buildKeyMap(pk, sk?)`: builds the key object, throwing
`DecoratorMissingError` when a sort value is supplied but no (truthy)
sort key field is declared. -/
def Repo.buildKeyMap (e : ClassDecl) (pk : DynamoKey) (sk : Option DynamoKey) :
    Except RepoError DynamoKeyMap := do
  let partitionKey ← Repo.getPKName e none
  let keys : DynamoKeyMap := [(partitionKey, pk)]
  match sk with
  | none => pure keys
  | some skv => do
    let sortKey ← Repo.getSKName e none
    match sortKey with
    | some s =>
      if strTruthy s then pure (aset keys s skv)
      else .error (.decoratorMissing
        ("Sort key provided but entity class \"" ++ e.className ++
          "\" does not have a sort key defined. Make sure a property is decorated with @SortKey."))
    | none =>
      .error (.decoratorMissing
        ("Sort key provided but entity class \"" ++ e.className ++
          "\" does not have a sort key defined. Make sure a property is decorated with @SortKey."))

/-- `buildCreateConditionExpression(skName?)`. -/
def Repo.buildCreateConditionExpression (skName : Option String) : String :=
  if optTruthy skName then
    "attribute_not_exists(#pk) AND attribute_not_exists(#sk)"
  else
    "attribute_not_exists(#pk)"

/-- `buildExpressionAttributeNames(pkName, skName?)`. -/
def Repo.buildExpressionAttributeNames (pkName : String)
    (skName : Option String) : List (String × String) :=
  match skName with
  | some s => if strTruthy s then [("#pk", pkName), ("#sk", s)] else [("#pk", pkName)]
  | none => [("#pk", pkName)]

/-- The triple returned by `buildQueryExpressions`. -/
structure QueryExpressions where
  keyConditionExpression : String
  expressionAttributeNames : List (String × String)
  expressionAttributeValues : List (String × DynamoKey)
  deriving Repr, DecidableEq

/-- `buildQueryExpressions(pk, pkName, sk?, skName?, skComparator?)`: the
key-condition string plus its name and value bindings.  The sort clause
is appended only when both the sort value and a truthy sort field name
are present; `begins_with` is special-cased, every other comparator is
interpolated verbatim. -/
def Repo.buildQueryExpressions (pk : DynamoKey) (pkName : String)
    (sk : Option DynamoKey) (skName : Option String) (skComparator : String) :
    QueryExpressions :=
  let expressionAttributeNames : List (String × String) := [("#pk", pkName)]
  let expressionAttributeValues : List (String × DynamoKey) := [(":pkValue", pk)]
  let keyConditionExpression := "#pk = :pkValue"
  match sk with
  | some skv =>
    match skName with
    | some s =>
      if strTruthy s then
        let skComparisonString :=
          if skComparator = "begins_with" then "begins_with(#sk, :skValue)"
          else "#sk " ++ skComparator ++ " :skValue"
        ⟨keyConditionExpression ++ " AND " ++ skComparisonString,
          aset expressionAttributeNames "#sk" s,
          aset expressionAttributeValues ":skValue" skv⟩
      else
        ⟨keyConditionExpression, expressionAttributeNames, expressionAttributeValues⟩
    | none =>
      ⟨keyConditionExpression, expressionAttributeNames, expressionAttributeValues⟩
  | none =>
    ⟨keyConditionExpression, expressionAttributeNames, expressionAttributeValues⟩

/-- A calendar instant, the argument of `toISOString`. -/
structure JsDate where
  year : Nat
  month : Nat
  day : Nat
  hour : Nat
  minute : Nat
  second : Nat
  millisecond : Nat
  deriving Repr, DecidableEq

/-- Left-pads the decimal rendering of `n` with zeros to `width`
characters. -/
def padNum (width n : Nat) : String :=
  String.mk (List.replicate (width - (toString n).length) '0') ++ toString n

/-- `Date.prototype.toISOString`: the fixed
`YYYY-MM-DDTHH:mm:ss.sssZ` rendering of the instant. -/
def JsDate.toISOString (d : JsDate) : String :=
  padNum 4 d.year ++ "-" ++ padNum 2 d.month ++ "-" ++ padNum 2 d.day ++ "T" ++
  padNum 2 d.hour ++ ":" ++ padNum 2 d.minute ++ ":" ++ padNum 2 d.second ++ "." ++
  padNum 3 d.millisecond ++ "Z"

/-- `create(item)`: a null/undefined item throws a plain `Error`; then
the table and key names are resolved, the create condition and its name
aliases built, and one conditional `PutCommand` issued. -/
def Repo.create (e : ClassDecl) (item : Option Item) : RepoOutcome Item :=
  match item with
  | none => ⟨.error (.generic "Item cannot be null or undefined"), []⟩
  | some it =>
    match Repo.getTableName e with
    | .error err => ⟨.error err, []⟩
    | .ok tableName =>
      match Repo.getPKName e none with
      | .error err => ⟨.error err, []⟩
      | .ok partitionKey =>
        match Repo.getSKName e none with
        | .error err => ⟨.error err, []⟩
        | .ok sortKey =>
          let conditionExpression := Repo.buildCreateConditionExpression sortKey
          let names := Repo.buildExpressionAttributeNames partitionKey sortKey
          ⟨.ok it, [.putCmd tableName it (some ⟨conditionExpression, names⟩)]⟩

/-- `getItem(pk, sk?)`: resolves the table name, builds the key map,
issues one `GetCommand`; a response with no item throws
`ItemNotFoundError`, otherwise the item is returned. -/
def Repo.getItem (e : ClassDecl) (store : Store) (pk : DynamoKey)
    (sk : Option DynamoKey) : RepoOutcome Item :=
  match Repo.getTableName e with
  | .error err => ⟨.error err, []⟩
  | .ok tableName =>
    match Repo.buildKeyMap e pk sk with
    | .error err => ⟨.error err, []⟩
    | .ok key =>
      match store tableName key with
      | some it => ⟨.ok it, [.getCmd tableName key]⟩
      | none =>
        ⟨.error (.itemNotFound "Item not found in your DynamoDB Table!"),
          [.getCmd tableName key]⟩

/-- `put(item)`: a null/undefined item throws `InvalidParametersError`;
otherwise one unconditional `PutCommand` is issued and the item
returned. -/
def Repo.put (e : ClassDecl) (item : Option Item) : RepoOutcome Item :=
  match item with
  | none => ⟨.error (.invalidParameters "Item cannot be null or undefined!"), []⟩
  | some it =>
    match Repo.getTableName e with
    | .error err => ⟨.error err, []⟩
    | .ok tableName => ⟨.ok it, [.putCmd tableName it none]⟩

/-- `softDelete(pk, sk?)`: reads the item via `getItem`, sets its
`deletedAt` field to `new Date().toISOString()` (the current instant
`now` is a parameter of the embedding), writes it back via `put`. -/
def Repo.softDelete (e : ClassDecl) (store : Store) (now : JsDate)
    (pk : DynamoKey) (sk : Option DynamoKey) : RepoOutcome Unit :=
  let r := Repo.getItem e store pk sk
  match r.result with
  | .error err => ⟨.error err, r.calls⟩
  | .ok it =>
    let updated := aset it "deletedAt" (.str now.toISOString)
    let r2 := Repo.put e (some updated)
    match r2.result with
    | .error err => ⟨.error err, r.calls ++ r2.calls⟩
    | .ok _ => ⟨.ok (), r.calls ++ r2.calls⟩

/-- `remove(pk, sk?)`: resolves the table name and key map, then issues
one `DeleteCommand`. -/
def Repo.remove (e : ClassDecl) (pk : DynamoKey) (sk : Option DynamoKey) :
    RepoOutcome Unit :=
  match Repo.getTableName e with
  | .error err => ⟨.error err, []⟩
  | .ok tableName =>
    match Repo.buildKeyMap e pk sk with
    | .error err => ⟨.error err, []⟩
    | .ok key => ⟨.ok (), [.deleteCmd tableName key]⟩

/-- `query(options)` up to the issuing of the `QueryCommand`: resolves
names (index-scoped when an index name is given), rejects a sort value
without any resolvable sort key field, builds the query expressions and
assembles the command input.  Defaults: comparator `"="`, ascending
order. -/
def Repo.query (e : ClassDecl) (options : QueryOptions) :
    Except RepoError QueryCommandInput := do
  let tableName ← Repo.getTableName e
  let pkName ← Repo.getPKName e options.indexName
  let skName ← match options.sk with
    | some _ => Repo.getSKName e options.indexName
    | none => pure (none : Option String)
  if options.sk.isSome && ¬ optTruthy skName then
    .error (.decoratorMissing
      ("Sort key provided but no sort key found in entity class \"" ++ e.className ++
        "\". Make sure a property is decorated with @SortKey or @IndexSortKey."))
  else
    let qe := Repo.buildQueryExpressions options.pk pkName options.sk skName
      (options.skComparator.getD "=")
    pure ⟨tableName, options.indexName, qe.keyConditionExpression,
      qe.expressionAttributeNames, qe.expressionAttributeValues,
      options.limit, options.scanIndexForward.getD true⟩

/-! Sample data, mirroring `src/entity-example.ts` (`UserEntity`:
`@DynamoTable("User")`, `@PartitionKey() orgId`, `@SortKey() id`,
`@IndexSortKey("EmailIndex") email`) and the pk-only test entity of the
test suite.  Used to instantiate the theorems at concrete inputs. -/

def userEntity : ClassDecl :=
  ⟨"UserEntity", ⟨some "User", some "orgId", some "id", [], [("EmailIndex", "email")]⟩⟩

def pkOnlyEntity : ClassDecl :=
  ⟨"PkOnlyEntity", ⟨some "PkOnlyTable", some "pk", none, [], []⟩⟩

def sampleItem : Item :=
  [("orgId", .str "USER"), ("id", .str "user-1"), ("email", .str "a@x.com")]

def sampleStore : Store := fun _ _ => some sampleItem

def emptyStore : Store := fun _ _ => none

def sampleDate : JsDate := ⟨2024, 1, 2, 3, 4, 5, 6⟩

/-- The metadata of a class on which every kind of key has already been
declared once (used to exercise the duplicate-declaration checks). -/
def fullMeta : Metadata :=
  ⟨some "T", some "pk", some "sk", [("EmailIndex", "type")], [("EmailIndex", "email")]⟩

end SimpleDynamo

namespace SimpleDynamo

/-! ### Helper lemmas -/

theorem alookup_aset {β : Type} (l : List (String × β)) (k f : String) (v : β) :
    alookup (aset l k v) f = if f = k then some v else alookup l f := by
  induction l with
  | nil =>
    by_cases h : f = k
    · simp [aset, alookup, h]
    · simp [aset, alookup, h, Ne.symm h]
  | cons hd tl ih =>
    obtain ⟨k', v'⟩ := hd
    by_cases hk : k' = k
    · subst hk
      by_cases h : f = k'
      · simp [aset, alookup, h]
      · simp [aset, alookup, h, Ne.symm h]
    · by_cases h2 : k' = f
      · subst h2
        simp [aset, alookup, hk, Ne.symm hk]
      · simp [aset, alookup, hk, h2, ih]

theorem append_Z_ne_empty (s : String) : s ++ "Z" ≠ "" := by
  intro h
  have h' := congrArg String.length h
  simp [String.length_append] at h'
  exact absurd h'.2 (by decide)

theorem toISOString_ne_empty (d : JsDate) : d.toISOString ≠ "" := by
  unfold JsDate.toISOString
  exact append_Z_ne_empty _

/-- `getSKName` with no index name is exactly the registered base sort
key field. -/
theorem getSKName_no_index (e : ClassDecl) :
    Repo.getSKName e none = .ok e.metadata.sortKey := rfl

/-- `getItem` when the store holds an item at the resolved key: returns
it after exactly one `GetCommand`. -/
theorem getItem_ok (e : ClassDecl) (store : Store) (pk : DynamoKey)
    (sk : Option DynamoKey) (t : String) (key : DynamoKeyMap) (it : Item)
    (ht : Repo.getTableName e = .ok t)
    (hk : Repo.buildKeyMap e pk sk = .ok key)
    (hit : store t key = some it) :
    Repo.getItem e store pk sk = ⟨.ok it, [.getCmd t key]⟩ := by
  simp [Repo.getItem, ht, hk, hit]

/-- `getItem` when the store response carries no item: throws
`ItemNotFoundError` after exactly one `GetCommand`. -/
theorem getItem_absent (e : ClassDecl) (store : Store) (pk : DynamoKey)
    (sk : Option DynamoKey) (t : String) (key : DynamoKeyMap)
    (ht : Repo.getTableName e = .ok t)
    (hk : Repo.buildKeyMap e pk sk = .ok key)
    (hnone : store t key = none) :
    Repo.getItem e store pk sk =
      ⟨.error (.itemNotFound "Item not found in your DynamoDB Table!"),
        [.getCmd t key]⟩ := by
  simp [Repo.getItem, ht, hk, hnone]

/-- A name argument satisfying `nameArgOk` passes the decorator's
validation prelude. -/
theorem validateOptName_ok (v : Option String) (p : String)
    (hv : nameArgOk v = true) : validateOptName v p = .ok () := by
  cases v with
  | none => rfl
  | some s =>
    by_cases h : strTruthy s
    · simp [nameArgOk, h] at hv
      simp [validateOptName, h, validateNonEmptyString, hv]
    · simp only [validateOptName, h, if_false, ite_false, Bool.false_eq_true]
      rfl

/-! ### Claim theorems -/

/-- C1: `buildQueryExpressions` returns the key condition
`#pk = :pkValue` when no sort value is supplied; with a sort value and
comparator `begins_with` it returns
`#pk = :pkValue AND begins_with(#sk, :skValue)`; with any other
comparator (including `BETWEEN`, which falls through to this branch) it
returns `#pk = :pkValue AND #sk <comparator> :skValue` with the
comparator inserted verbatim.  In every case `#pk` is bound to the
partition field name and `:pkValue` to the partition value, and when a
sort value is supplied `#sk` / `:skValue` are bound to the sort field
name / sort value. -/
theorem c1_buildQueryExpressions (pk : DynamoKey) (pkName : String)
    (skv : DynamoKey) (skName : String) (skN : Option String) (comp : String)
    (hsk : skName ≠ "") :
    (Repo.buildQueryExpressions pk pkName none skN comp =
      ⟨"#pk = :pkValue", [("#pk", pkName)], [(":pkValue", pk)]⟩) ∧
    (Repo.buildQueryExpressions pk pkName (some skv) (some skName) "begins_with" =
      ⟨"#pk = :pkValue AND begins_with(#sk, :skValue)",
        [("#pk", pkName), ("#sk", skName)],
        [(":pkValue", pk), (":skValue", skv)]⟩) ∧
    (comp ≠ "begins_with" →
      Repo.buildQueryExpressions pk pkName (some skv) (some skName) comp =
      ⟨"#pk = :pkValue AND #sk " ++ comp ++ " :skValue",
        [("#pk", pkName), ("#sk", skName)],
        [(":pkValue", pk), (":skValue", skv)]⟩) := by
  refine ⟨rfl, ?_, ?_⟩
  · simp [Repo.buildQueryExpressions, strTruthy, hsk, aset]
  · intro hc
    simp only [Repo.buildQueryExpressions, strTruthy, hsk, hc, aset]
    simp [hsk, hc, ← String.append_assoc]

/-- C1 witness: the `BETWEEN` comparator falls through to the verbatim
branch on a concrete query. -/
theorem c1_buildQueryExpressions_witness :
    Repo.buildQueryExpressions (.str "USER") "orgId" (some (.str "a"))
      (some "id") "BETWEEN" =
    ⟨"#pk = :pkValue AND #sk " ++ "BETWEEN" ++ " :skValue",
      [("#pk", "orgId"), ("#sk", "id")],
      [(":pkValue", .str "USER"), (":skValue", .str "a")]⟩ :=
  (c1_buildQueryExpressions (.str "USER") "orgId" (.str "a") "id" none
    "BETWEEN" (by decide)).2.2 (by decide)

/-- C2: `create` on an entity class with a declared (nonempty) sort key
issues a conditional put whose condition is
`attribute_not_exists(#pk) AND attribute_not_exists(#sk)` with `#pk` and
`#sk` mapped to the resolved partition and sort key field names; on a
class without a declared sort key, the condition is exactly
`attribute_not_exists(#pk)` and the name mapping has no `#sk` entry. -/
theorem c2_create_condition (e : ClassDecl) (it : Item) (t p : String)
    (ht : Repo.getTableName e = .ok t) (hp : Repo.getPKName e none = .ok p) :
    (∀ s, e.metadata.sortKey = some s → s ≠ "" →
      Repo.create e (some it) =
        ⟨.ok it, [.putCmd t it
          (some ⟨"attribute_not_exists(#pk) AND attribute_not_exists(#sk)",
            [("#pk", p), ("#sk", s)]⟩)]⟩) ∧
    (e.metadata.sortKey = none →
      Repo.create e (some it) =
        ⟨.ok it, [.putCmd t it
          (some ⟨"attribute_not_exists(#pk)", [("#pk", p)]⟩)]⟩ ∧
      alookup (Repo.buildExpressionAttributeNames p none) "#sk" = none) := by
  constructor
  · intro s hs hne
    simp [Repo.create, ht, hp, getSKName_no_index, hs,
      Repo.buildCreateConditionExpression, Repo.buildExpressionAttributeNames,
      optTruthy, strTruthy, hne]
  · intro hs
    refine ⟨?_, rfl⟩
    simp [Repo.create, ht, hp, getSKName_no_index, hs,
      Repo.buildCreateConditionExpression, Repo.buildExpressionAttributeNames,
      optTruthy, strTruthy]

/-- C2 witness: the two branches at the concrete `UserEntity` (sort key
declared) and a pk-only entity. -/
theorem c2_create_condition_witness :
    Repo.create userEntity (some sampleItem) =
      ⟨.ok sampleItem, [.putCmd "User" sampleItem
        (some ⟨"attribute_not_exists(#pk) AND attribute_not_exists(#sk)",
          [("#pk", "orgId"), ("#sk", "id")]⟩)]⟩ ∧
    Repo.create pkOnlyEntity (some sampleItem) =
      ⟨.ok sampleItem, [.putCmd "PkOnlyTable" sampleItem
        (some ⟨"attribute_not_exists(#pk)", [("#pk", "pk")]⟩)]⟩ :=
  ⟨(c2_create_condition userEntity sampleItem "User" "orgId" rfl rfl).1
      "id" rfl (by decide),
    ((c2_create_condition pkOnlyEntity sampleItem "PkOnlyTable" "pk" rfl rfl).2
      rfl).1⟩

/-- C3: a second `@PartitionKey` (resp. `@SortKey`, or a second
`@IndexPartitionKey` / `@IndexSortKey` of the same kind for the same
index name) raises `DuplicateDecoratorError` from the decorator
application itself — synchronously, never later at call time — and the
previously registered field name is left unchanged: the application
never returns an updated metadata record. -/
theorem c3_duplicate_decorator (m : Metadata) (f : Option String)
    (propKey cn i : String) (hf : nameArgOk f = true) (hi : jsTrim i ≠ "") :
    (m.partitionKey.isSome →
      errKindOf (PartitionKey f propKey cn m) = some .duplicateDecorator ∧
      ∀ m', PartitionKey f propKey cn m ≠ .ok m') ∧
    (m.sortKey.isSome →
      errKindOf (SortKey f propKey cn m) = some .duplicateDecorator ∧
      ∀ m', SortKey f propKey cn m ≠ .ok m') ∧
    ((alookup m.indexPartitionKeys i).isSome →
      errKindOf (IndexPartitionKey i f propKey cn m) = some .duplicateDecorator ∧
      ∀ m', IndexPartitionKey i f propKey cn m ≠ .ok m') ∧
    ((alookup m.indexSortKeys i).isSome →
      errKindOf (IndexSortKey i f propKey cn m) = some .duplicateDecorator ∧
      ∀ m', IndexSortKey i f propKey cn m ≠ .ok m') := by
  have hvf := validateOptName_ok f "fieldName" hf
  refine ⟨?_, ?_, ?_, ?_⟩
  · intro h
    obtain ⟨p, hp⟩ := Option.isSome_iff_exists.mp h
    constructor
    · simp [PartitionKey, hvf, hp, validateDuplicateDecorator, errKindOf,
        RepoError.kind, Bind.bind, Except.bind]
    · intro m'
      simp [PartitionKey, hvf, hp, validateDuplicateDecorator, Bind.bind,
        Except.bind]
  · intro h
    obtain ⟨p, hp⟩ := Option.isSome_iff_exists.mp h
    constructor
    · simp [SortKey, hvf, hp, validateDuplicateDecorator, errKindOf,
        RepoError.kind, Bind.bind, Except.bind]
    · intro m'
      simp [SortKey, hvf, hp, validateDuplicateDecorator, Bind.bind,
        Except.bind]
  · intro h
    obtain ⟨v, hv⟩ := Option.isSome_iff_exists.mp h
    constructor
    · simp [IndexPartitionKey, validateNonEmptyString, hi, hvf, hv, errKindOf,
        RepoError.kind, Bind.bind, Except.bind]
    · intro m'
      simp [IndexPartitionKey, validateNonEmptyString, hi, hvf, hv, Bind.bind,
        Except.bind]
  · intro h
    obtain ⟨v, hv⟩ := Option.isSome_iff_exists.mp h
    constructor
    · simp [IndexSortKey, validateNonEmptyString, hi, hvf, hv, errKindOf,
        RepoError.kind, Bind.bind, Except.bind]
    · intro m'
      simp [IndexSortKey, validateNonEmptyString, hi, hvf, hv, Bind.bind,
        Except.bind]

/-- C3 witness: on a class with every kind of key already declared, each
second declaration raises `DuplicateDecoratorError`. -/
theorem c3_duplicate_decorator_witness :
    errKindOf (PartitionKey none "other" "C" fullMeta) =
      some .duplicateDecorator ∧
    errKindOf (SortKey none "other" "C" fullMeta) =
      some .duplicateDecorator ∧
    errKindOf (IndexPartitionKey "EmailIndex" none "other" "C" fullMeta) =
      some .duplicateDecorator ∧
    errKindOf (IndexSortKey "EmailIndex" none "other" "C" fullMeta) =
      some .duplicateDecorator := by
  have h := c3_duplicate_decorator fullMeta none "other" "C" "EmailIndex"
    (by decide) (by decide)
  exact ⟨(h.1 (by decide)).1, (h.2.1 (by decide)).1,
    (h.2.2.1 (by decide)).1, (h.2.2.2 (by decide)).1⟩

/-- C4: for every class (or instance, wherever a class is expected:
resolution normalizes instance to class) with no declared table name /
partition key / sort key / index key for a given non-empty,
non-whitespace index name, each resolver returns the absent value and
never raises. -/
theorem c4_resolvers_absent (c : ClassDecl) (i : String)
    (hi1 : i ≠ "") (hi2 : jsTrim i ≠ "") :
    (c.metadata.tableName = none →
      getDynamoTableName (.cls c) = none ∧ getDynamoTableName (.inst c) = none) ∧
    (c.metadata.partitionKey = none →
      getPartitionKeyName (.cls c) = none ∧ getPartitionKeyName (.inst c) = none) ∧
    (c.metadata.sortKey = none →
      getSortKeyName (.cls c) = none ∧ getSortKeyName (.inst c) = none) ∧
    (alookup c.metadata.indexPartitionKeys i = none →
      getIndexPartitionKeyName (.cls c) i = .ok none ∧
      getIndexPartitionKeyName (.inst c) i = .ok none) ∧
    (alookup c.metadata.indexSortKeys i = none →
      getIndexSortKeyName (.cls c) i = .ok none ∧
      getIndexSortKeyName (.inst c) i = .ok none) := by
  refine ⟨?_, ?_, ?_, ?_, ?_⟩
  · intro h
    exact ⟨h, h⟩
  · intro h
    exact ⟨h, h⟩
  · intro h
    exact ⟨h, h⟩
  · intro h
    constructor <;>
      simp [getIndexPartitionKeyName, getConstructor, strTruthy, hi1, hi2, h]
  · intro h
    constructor <;>
      simp [getIndexSortKeyName, getConstructor, strTruthy, hi1, hi2, h]

/-- C4 witness: on a bare (undecorated) class, every resolver returns
the absent value for index name `"EmailIndex"`. -/
theorem c4_resolvers_absent_witness :
    (getDynamoTableName (.cls ⟨"Bare", Metadata.empty⟩) = none ∧
      getDynamoTableName (.inst ⟨"Bare", Metadata.empty⟩) = none) ∧
    (getPartitionKeyName (.cls ⟨"Bare", Metadata.empty⟩) = none ∧
      getPartitionKeyName (.inst ⟨"Bare", Metadata.empty⟩) = none) ∧
    (getSortKeyName (.cls ⟨"Bare", Metadata.empty⟩) = none ∧
      getSortKeyName (.inst ⟨"Bare", Metadata.empty⟩) = none) ∧
    (getIndexPartitionKeyName (.cls ⟨"Bare", Metadata.empty⟩) "EmailIndex" = .ok none ∧
      getIndexPartitionKeyName (.inst ⟨"Bare", Metadata.empty⟩) "EmailIndex" = .ok none) ∧
    (getIndexSortKeyName (.cls ⟨"Bare", Metadata.empty⟩) "EmailIndex" = .ok none ∧
      getIndexSortKeyName (.inst ⟨"Bare", Metadata.empty⟩) "EmailIndex" = .ok none) := by
  have h := c4_resolvers_absent ⟨"Bare", Metadata.empty⟩ "EmailIndex"
    (by decide) (by decide)
  exact ⟨h.1 rfl, h.2.1 rfl, h.2.2.1 rfl, h.2.2.2.1 rfl, h.2.2.2.2 rfl⟩

/-- C5: on an entity class with a (truthy) partition key and no declared
sort key, `buildKeyMap` with no sort value yields exactly the one
partition-key entry, and `getItem` / `remove` with a sort value supplied
raise `DecoratorMissingError` without issuing any store call. -/
theorem c5_pk_only (e : ClassDecl) (store : Store) (pk skv : DynamoKey)
    (t p : String)
    (ht : e.metadata.tableName = some t) (htt : t ≠ "")
    (hp : e.metadata.partitionKey = some p) (hpp : p ≠ "")
    (hs : e.metadata.sortKey = none) :
    Repo.buildKeyMap e pk none = .ok [(p, pk)] ∧
    (errKindOf (Repo.getItem e store pk (some skv)).result =
        some .decoratorMissing ∧
      (Repo.getItem e store pk (some skv)).calls = []) ∧
    (errKindOf (Repo.remove e pk (some skv)).result = some .decoratorMissing ∧
      (Repo.remove e pk (some skv)).calls = []) := by
  have hpk : Repo.getPKName e none = .ok p := by
    simp [Repo.getPKName, getPartitionKeyName, getConstructor, optTruthy,
      strTruthy, hp, hpp, Bind.bind, Except.bind, Pure.pure, Except.pure]
  have htn : Repo.getTableName e = .ok t := by
    simp [Repo.getTableName, getDynamoTableName, getConstructor, strTruthy,
      ht, htt]
  have hkm : ∀ msg, Repo.buildKeyMap e pk (some skv) =
      .error (.decoratorMissing msg) → True := fun _ _ => trivial
  have hkme : Repo.buildKeyMap e pk (some skv) =
      .error (.decoratorMissing
        ("Sort key provided but entity class \"" ++ e.className ++
          "\" does not have a sort key defined. Make sure a property is decorated with @SortKey.")) := by
    simp [Repo.buildKeyMap, hpk, getSKName_no_index, hs, Bind.bind, Except.bind,
      Pure.pure, Except.pure]
  refine ⟨?_, ?_, ?_⟩
  · simp [Repo.buildKeyMap, hpk, Bind.bind, Except.bind, Pure.pure, Except.pure]
  · constructor
    · simp [Repo.getItem, htn, hkme, errKindOf, RepoError.kind]
    · simp [Repo.getItem, htn, hkme]
  · constructor
    · simp [Repo.remove, htn, hkme, errKindOf, RepoError.kind]
    · simp [Repo.remove, htn, hkme]

/-- C5 witness: the pk-only entity at concrete keys. -/
theorem c5_pk_only_witness :
    Repo.buildKeyMap pkOnlyEntity (.str "a") none = .ok [("pk", .str "a")] ∧
    errKindOf (Repo.getItem pkOnlyEntity emptyStore (.str "a")
        (some (.str "b"))).result = some .decoratorMissing ∧
    (Repo.getItem pkOnlyEntity emptyStore (.str "a") (some (.str "b"))).calls = [] ∧
    errKindOf (Repo.remove pkOnlyEntity (.str "a") (some (.str "b"))).result =
      some .decoratorMissing ∧
    (Repo.remove pkOnlyEntity (.str "a") (some (.str "b"))).calls = [] := by
  have h := c5_pk_only pkOnlyEntity emptyStore (.str "a") (.str "b")
    "PkOnlyTable" "pk" rfl (by decide) rfl (by decide) rfl
  exact ⟨h.1, h.2.1.1, h.2.1.2, h.2.2.1, h.2.2.2⟩

/-- C6: when the store's point-read response carries no item, `getItem`
raises `ItemNotFoundError` (it never returns an absent value — its
success type is the item itself); when the response carries an item,
`getItem` returns exactly that item. -/
theorem c6_getItem (e : ClassDecl) (store : Store) (pk : DynamoKey)
    (sk : Option DynamoKey) (t : String) (key : DynamoKeyMap)
    (ht : Repo.getTableName e = .ok t)
    (hk : Repo.buildKeyMap e pk sk = .ok key) :
    (store t key = none →
      Repo.getItem e store pk sk =
        ⟨.error (.itemNotFound "Item not found in your DynamoDB Table!"),
          [.getCmd t key]⟩) ∧
    (∀ it, store t key = some it →
      Repo.getItem e store pk sk = ⟨.ok it, [.getCmd t key]⟩) :=
  ⟨fun hn => getItem_absent e store pk sk t key ht hk hn,
    fun it hit => getItem_ok e store pk sk t key it ht hk hit⟩

/-- C6 witness: `UserEntity` against an empty store (not-found error)
and against a store holding the sample item (item returned). -/
theorem c6_getItem_witness :
    Repo.getItem userEntity emptyStore (.str "USER") (some (.str "user-1")) =
      ⟨.error (.itemNotFound "Item not found in your DynamoDB Table!"),
        [.getCmd "User" [("orgId", .str "USER"), ("id", .str "user-1")]]⟩ ∧
    Repo.getItem userEntity sampleStore (.str "USER") (some (.str "user-1")) =
      ⟨.ok sampleItem,
        [.getCmd "User" [("orgId", .str "USER"), ("id", .str "user-1")]]⟩ :=
  ⟨(c6_getItem userEntity emptyStore (.str "USER") (some (.str "user-1"))
      "User" [("orgId", .str "USER"), ("id", .str "user-1")] rfl rfl).1 rfl,
    (c6_getItem userEntity sampleStore (.str "USER") (some (.str "user-1"))
      "User" [("orgId", .str "USER"), ("id", .str "user-1")] rfl rfl).2
      sampleItem rfl⟩

/-- C7 counterexample: at the concrete `UserEntity`, `create(null)`
raises a plain `Error` — not an error of the `InvalidParametersError`
class, contrary to the claim. -/
theorem c7_counterexample :
    (Repo.create userEntity none).result =
      .error (.generic "Item cannot be null or undefined") ∧
    errKindOf (Repo.create userEntity none).result ≠ some .invalidParameters :=
  ⟨rfl, by decide⟩

/-- C7 (amended): for every entity class, an absent item makes `put`
raise `InvalidParametersError` and `create` raise a plain `Error` (not
`InvalidParametersError`), both before issuing any store call. -/
theorem c7_absent_item (e : ClassDecl) :
    Repo.put e none =
      ⟨.error (.invalidParameters "Item cannot be null or undefined!"), []⟩ ∧
    Repo.create e none =
      ⟨.error (.generic "Item cannot be null or undefined"), []⟩ ∧
    errKindOf (Repo.create e none).result = some .generic :=
  ⟨rfl, rfl, rfl⟩

/-- C8 counterexample: `@DynamoTable("")` does not raise — the JS
truthiness guard skips validation of the empty string — and registers
`""` verbatim as the table name, contrary to the claim. -/
theorem c8_counterexample :
    DynamoTable (some "") "TestEntity" Metadata.empty =
      .ok ⟨some "", none, none, [], []⟩ ∧
    errKindOf (DynamoTable (some "") "TestEntity" Metadata.empty) = none :=
  ⟨rfl, rfl⟩

/-- C8 (amended): an explicitly supplied table name that is nonempty but
trims to empty raises a configuration error (a plain `Error`) and
registers nothing; a supplied empty string skips validation and is
registered verbatim; with no name supplied the class's own declared name
is registered. -/
theorem c8_dynamoTable (cn t : String) (m : Metadata) :
    (t ≠ "" → jsTrim t = "" →
      errKindOf (DynamoTable (some t) cn m) = some .generic ∧
      ∀ m', DynamoTable (some t) cn m ≠ .ok m') ∧
    (m.tableName = none →
      DynamoTable none cn m =
        .ok ⟨some cn, m.partitionKey, m.sortKey,
          m.indexPartitionKeys, m.indexSortKeys⟩) ∧
    (m.tableName = none →
      DynamoTable (some "") cn m =
        .ok ⟨some "", m.partitionKey, m.sortKey,
          m.indexPartitionKeys, m.indexSortKeys⟩) := by
  refine ⟨?_, ?_, ?_⟩
  · intro h1 h2
    constructor
    · simp [DynamoTable, validateOptName, strTruthy, h1,
        validateNonEmptyString, h2, errKindOf, RepoError.kind, Bind.bind,
        Except.bind]
    · intro m'
      simp [DynamoTable, validateOptName, strTruthy, h1,
        validateNonEmptyString, h2, Bind.bind, Except.bind]
  · intro h
    simp [DynamoTable, validateOptName, h, validateDuplicateDecorator,
      Bind.bind, Except.bind, Pure.pure, Except.pure]
  · intro h
    simp [DynamoTable, validateOptName, strTruthy, h,
      validateDuplicateDecorator, Bind.bind, Except.bind, Pure.pure,
      Except.pure]

/-- C8 witness: a whitespace-only name raises; no name defaults to the
class name; the empty string registers verbatim. -/
theorem c8_dynamoTable_witness :
    errKindOf (DynamoTable (some "   ") "TestEntity" Metadata.empty) =
      some .generic ∧
    DynamoTable none "TestEntity" Metadata.empty =
      .ok ⟨some "TestEntity", none, none, [], []⟩ ∧
    DynamoTable (some "") "TestEntity2" Metadata.empty =
      .ok ⟨some "", none, none, [], []⟩ := by
  have h := c8_dynamoTable "TestEntity" "   " Metadata.empty
  have h2 := c8_dynamoTable "TestEntity2" "   " Metadata.empty
  exact ⟨(h.1 (by decide) (by decide)).1, h.2.1 rfl, h2.2.2 rfl⟩

/-- C9: for every key whose item exists in the store, `softDelete`
performs exactly one read (`GetCommand`) followed by exactly one write
(`PutCommand`); the written item agrees with the read item on every
field except `deletedAt`, which is set to the ISO rendering of the
current instant — a non-empty textual timestamp. -/
theorem c9_softDelete (e : ClassDecl) (store : Store) (d : JsDate)
    (pk : DynamoKey) (sk : Option DynamoKey) (t : String)
    (key : DynamoKeyMap) (it : Item)
    (ht : Repo.getTableName e = .ok t)
    (hk : Repo.buildKeyMap e pk sk = .ok key)
    (hit : store t key = some it) :
    Repo.softDelete e store d pk sk =
      ⟨.ok (), [.getCmd t key,
        .putCmd t (aset it "deletedAt" (.str d.toISOString)) none]⟩ ∧
    (∀ f, alookup (aset it "deletedAt" (.str d.toISOString)) f =
      if f = "deletedAt" then some (.str d.toISOString) else alookup it f) ∧
    d.toISOString ≠ "" := by
  refine ⟨?_, fun f => alookup_aset it "deletedAt" f (.str d.toISOString),
    toISOString_ne_empty d⟩
  have hget := getItem_ok e store pk sk t key it ht hk hit
  simp [Repo.softDelete, hget, Repo.put, ht]

/-- C9 witness: soft-deleting the sample item performs the read and the
write, and the sample timestamp is non-empty. -/
theorem c9_softDelete_witness :
    Repo.softDelete userEntity sampleStore sampleDate (.str "USER")
        (some (.str "user-1")) =
      ⟨.ok (), [.getCmd "User" [("orgId", .str "USER"), ("id", .str "user-1")],
        .putCmd "User" (aset sampleItem "deletedAt"
          (.str sampleDate.toISOString)) none]⟩ ∧
    sampleDate.toISOString ≠ "" := by
  have h := c9_softDelete userEntity sampleStore sampleDate (.str "USER")
    (some (.str "user-1")) "User"
    [("orgId", .str "USER"), ("id", .str "user-1")] sampleItem rfl rfl rfl
  exact ⟨h.1, h.2.2⟩

/-- C10: when a query supplies an index name for which no index
partition key is declared, `getPKName` silently falls back to the base
partition key (raising `DecoratorMissingError` only when that is also
undeclared), and `getSKName` likewise falls back to the base sort key
when the index declares no sort key; a query against an index is thus
built from a mixture of index-key and base-key field names without
error. -/
theorem c10_index_fallback (e : ClassDecl) (i p : String)
    (hi : i ≠ "") (hit : jsTrim i ≠ "")
    (hnopk : alookup e.metadata.indexPartitionKeys i = none) :
    (e.metadata.partitionKey = some p → p ≠ "" →
      Repo.getPKName e (some i) = .ok p) ∧
    (e.metadata.partitionKey = none →
      errKindOf (Repo.getPKName e (some i)) = some .decoratorMissing) ∧
    (alookup e.metadata.indexSortKeys i = none →
      Repo.getSKName e (some i) = .ok e.metadata.sortKey) ∧
    (∀ t s pkv skv, Repo.getTableName e = .ok t →
      alookup e.metadata.indexSortKeys i = some s → s ≠ "" →
      e.metadata.partitionKey = some p → p ≠ "" →
      Repo.query e ⟨pkv, some skv, none, some i, none, none⟩ =
        .ok ⟨t, some i, "#pk = :pkValue AND #sk = :skValue",
          [("#pk", p), ("#sk", s)], [(":pkValue", pkv), (":skValue", skv)],
          none, true⟩) := by
  refine ⟨?_, ?_, ?_, ?_⟩
  · intro hp hpne
    simp [Repo.getPKName, getIndexPartitionKeyName, getConstructor, strTruthy,
      hi, hit, hnopk, optTruthy, getPartitionKeyName, hp, hpne, Bind.bind,
      Except.bind, Pure.pure, Except.pure]
  · intro hp
    simp [Repo.getPKName, getIndexPartitionKeyName, getConstructor, strTruthy,
      hi, hit, hnopk, optTruthy, getPartitionKeyName, hp, errKindOf,
      RepoError.kind, Bind.bind, Except.bind, Pure.pure, Except.pure]
  · intro hnosk
    simp [Repo.getSKName, getIndexSortKeyName, getConstructor, strTruthy,
      hi, hit, hnosk, optTruthy, getSortKeyName, Bind.bind, Except.bind,
      Pure.pure, Except.pure]
  · intro t s pkv skv ht hsk hsne hp hpne
    have hpk : Repo.getPKName e (some i) = .ok p := by
      simp [Repo.getPKName, getIndexPartitionKeyName, getConstructor,
        strTruthy, hi, hit, hnopk, optTruthy, getPartitionKeyName, hp, hpne,
        Bind.bind, Except.bind, Pure.pure, Except.pure]
    have hskn : Repo.getSKName e (some i) = .ok (some s) := by
      simp [Repo.getSKName, getIndexSortKeyName, getConstructor, strTruthy,
        hi, hit, hsk, optTruthy, hsne, Bind.bind, Except.bind, Pure.pure,
        Except.pure]
    simp [Repo.query, ht, hpk, hskn, optTruthy, strTruthy, hsne,
      Repo.buildQueryExpressions, aset, Bind.bind, Except.bind, Pure.pure,
      Except.pure]

/-- C10 witness: `UserEntity`'s `EmailIndex` declares only a sort key
(`email`); `getPKName` falls back to `orgId`, `getSKName` for an index
with no keys falls back to `id`, and the `findByEmail`-shaped query
mixes `orgId` with `email` without error. -/
theorem c10_index_fallback_witness :
    Repo.getPKName userEntity (some "EmailIndex") = .ok "orgId" ∧
    Repo.getSKName userEntity (some "OtherIndex") = .ok (some "id") ∧
    Repo.query userEntity
        ⟨.str "USER", some (.str "a@x.com"), none, some "EmailIndex", none, none⟩ =
      .ok ⟨"User", some "EmailIndex", "#pk = :pkValue AND #sk = :skValue",
        [("#pk", "orgId"), ("#sk", "email")],
        [(":pkValue", .str "USER"), (":skValue", .str "a@x.com")],
        none, true⟩ := by
  have h1 := c10_index_fallback userEntity "EmailIndex" "orgId"
    (by decide) (by decide) rfl
  have h2 := c10_index_fallback userEntity "OtherIndex" "orgId"
    (by decide) (by decide) rfl
  exact ⟨h1.1 rfl (by decide), h2.2.2.1 rfl,
    h1.2.2.2 "User" "email" (.str "USER") (.str "a@x.com") rfl rfl
      (by decide) rfl (by decide)⟩

end SimpleDynamo
